import Mathlib

/-!
Shallow embedding of the CLI auto-installer (cliUtils): the registry of
installable CLIs, platform resolution, the availability probe, the per-OS
platform installers, and the installCli orchestrator.

External collaborators (subprocess execution, user prompt, temp-folder
allocation, HTTP download, archive extraction, file copying) are modelled as
oracles in an environment record; every effectful operation also appends to an
explicit effect trace.  Thrown JavaScript errors are modelled with Except.
Node path.join is modelled with a slash separator uniformly.
-/

namespace CliUtils

/-- Result strings recorded by the telemetry emitter. -/
inductive TelemetryResult
  | succeeded
  | cancelled
  | failed
deriving DecidableEq

/-- The identifiers of the installable CLIs (the AwsClis union type). -/
inductive AwsClis
  | aws
  | ssm
deriving DecidableEq

structure CliCommandPaths where
  unix : String
  windows : String
deriving DecidableEq

structure CliSources where
  macos : String
  windows : String
  linux : String
deriving DecidableEq

/-- The Cli descriptor interface: per-OS binary paths and source URLs. -/
structure Cli where
  command : CliCommandPaths
  source : CliSources
  manualInstallLink : String
  name : String
deriving DecidableEq

/-- The value of process.platform: the three supported identifiers, or any
other platform string. -/
inductive Platform
  | win32
  | darwin
  | linux
  | other (s : String)
deriving DecidableEq

def Platform.str : Platform → String
  | .win32 => "win32"
  | .darwin => "darwin"
  | .linux => "linux"
  | .other s => s

/-- The outcome of the user-facing confirmation prompt. -/
inductive Selection
  | install
  | manualInstall
  | dismissed
deriving DecidableEq

/-- One ChildProcess invocation: command, optional working directory, args. -/
structure ProcCall where
  command : String
  cwd : Option String
  args : List String
deriving DecidableEq

/-- Errors thrown by the installer code: the two declared error classes plus
a generic class for errors thrown by external collaborators. -/
inductive JsError
  | installerError (message : String)
  | invalidPlatformError (message : String)
  | genericError (message : String)
deriving DecidableEq

/-- Observable effects of one install session, in order of occurrence. -/
inductive Effect
  | procRun (call : ProcCall)
  | mkTempDir
  | download (url : String) (dest : String)
  | chmod (p : String)
  | writeFile (p : String)
  | extractZip (src : String) (dest : String)
  | copyTree (src : String) (dest : String)
  | mkdir (p : String)
  | removeFolder (dir : String)
  | telemetryRecord (result : TelemetryResult) (cli : AwsClis)
  | openExternal (url : String)
  | showErrorMessage (msg : String)
  | log (msg : String)
deriving DecidableEq

/-- The environment of oracles an install session consults: the running OS,
the extension storage root, the exit code every subprocess invocation would
return, the user's prompt selection, whether temp-folder creation succeeds and
the path it yields, whether the HTTP download succeeds, and the error message
(if any) thrown by archive extraction or by recursive file copying. -/
structure Env where
  platform : Platform
  globalStoragePath : String
  runProcess : ProcCall → Int
  selection : Selection
  mkTempOk : Bool
  tempDirPath : String
  downloadOk : Bool
  extractError : Option String
  copyError : Option String

/-- Node path.join with two segments (separator normalised to a slash). -/
def pathJoin (a b : String) : String := a ++ "/" ++ b

/-- Split a character list on a separator character; mirrors the behaviour of
String.splitOn for a one-character separator. -/
def splitOnChar (sep : Char) : List Char → List (List Char)
  | [] => [[]]
  | c :: cs =>
    let r := splitOnChar sep cs
    if c = sep then [] :: r
    else
      match r with
      | [] => [[c]]
      | h :: t => (c :: h) :: t

/-- Join character-list segments with a separator character. -/
def joinWithChar (sep : Char) : List (List Char) → List Char
  | [] => []
  | [x] => x
  | x :: xs => x ++ sep :: joinWithChar sep xs

/-- Node path.parse(p).base: the last slash-separated segment. -/
def baseName (p : String) : String :=
  String.mk ((splitOnChar '/' p.data).getLastD [])

/-- Node path.parse(p).dir: everything before the last slash. -/
def dirName (p : String) : String :=
  String.mk (joinWithChar '/' (splitOnChar '/' p.data).dropLast)

/-- Node path.parse(p).name: the base name without its final extension. -/
def fileStem (p : String) : String :=
  let parts := splitOnChar '.' (baseName p).data
  if parts.length ≤ 1 then baseName p else String.mk (joinWithChar '.' parts.dropLast)

/-- The AWS_CLIS registry: full filenames and download paths per OS. -/
def AWS_CLIS : AwsClis → Cli
  | .aws =>
    { command :=
        { unix := pathJoin "AWSCLIV2" "aws"
          windows := pathJoin "AWSCLIV2" "aws.exe" }
      source :=
        { macos := "https://awscli.amazonaws.com/AWSCLIV2.pkg"
          windows := "https://awscli.amazonaws.com/AWSCLIV2.msi"
          linux := "https://awscli.amazonaws.com/awscli-exe-linux-x86_64.zip" }
      name := "AWS"
      manualInstallLink := "https://docs.aws.amazon.com/cli/latest/userguide/install-cliv2.html" }
  | .ssm =>
    { command :=
        { unix := pathJoin (pathJoin "sessionmanagerplugin" "bin") "session-manager-plugin"
          windows := pathJoin (pathJoin "sessionmanagerplugin" "bin") "session-manager-plugin.exe" }
      source :=
        { macos := "https://s3.amazonaws.com/session-manager-downloads/plugin/latest/mac/session-manager-plugin.pkg"
          windows := "https://REMOVED/plugin/1.2.269.0/windows/SessionManagerPlugin.zip"
          linux := "https://s3.amazonaws.com/session-manager-downloads/plugin/latest/ubuntu_64bit/session-manager-plugin.deb" }
      name := "Session Manager Plugin"
      manualInstallLink := "https://docs.aws.amazon.com/systems-manager/latest/userguide/session-manager-working-with-install-plugin.html" }

/-- getToolkitCliDir: the managed install directory under the storage root. -/
def getToolkitCliDir (globalStoragePath : String) : String :=
  pathJoin globalStoragePath "cli"

/-- getToolkitLocalCliPath: the toolkit-local CLI path under the managed
install directory. -/
def getToolkitLocalCliPath (globalStoragePath : String) : String :=
  pathJoin (getToolkitCliDir globalStoragePath) "Amazon"

/-- getOsCommand: the per-OS relative binary path; every platform other than
win32 takes the unix entry. -/
def getOsCommand (platform : Platform) (cli : Cli) : String :=
  match platform with
  | .win32 => cli.command.windows
  | _ => cli.command.unix

/-- getOsCliSource: the per-OS download URL; any platform outside win32,
darwin and linux throws InvalidPlatformError. -/
def getOsCliSource (platform : Platform) (cli : Cli) : Except JsError String :=
  match platform with
  | .win32 => .ok cli.source.windows
  | .darwin => .ok cli.source.macos
  | .linux => .ok cli.source.linux
  | .other s =>
    .error (.invalidPlatformError ("Platform " ++ s ++ " is not supported for CLI autoinstallation."))

/-- The ChildProcess invocation made by hasCliCommand: the bare command name
(global) or the full path in the managed install directory (local), with a
single version-query argument. -/
def probeProcCall (env : Env) (cli : Cli) (global : Bool) : ProcCall :=
  { command :=
      if global then baseName (getOsCommand env.platform cli)
      else pathJoin (getToolkitLocalCliPath env.globalStoragePath) (getOsCommand env.platform cli)
    cwd := none
    args := ["--version"] }

/-- hasCliCommand: run the command with a version flag; the command string on
exit code zero, undefined otherwise.  Never throws. -/
def hasCliCommand (env : Env) (cli : Cli) (global : Bool) :
    Except JsError (Option String) × List Effect :=
  let call := probeProcCall env cli global
  (.ok (if env.runProcess call = 0 then some call.command else none), [Effect.procRun call])

/-- getCliCommand: the global command if its probe succeeds, otherwise the
local command if its probe succeeds, otherwise undefined. -/
def getCliCommand (env : Env) (cli : Cli) : Except JsError (Option String) × List Effect :=
  let g := hasCliCommand env cli true
  match g.1 with
  | .error e => (.error e, g.2)
  | .ok (some c) => (.ok (some c), g.2)
  | .ok none =>
    let l := hasCliCommand env cli false
    (l.1, g.2 ++ l.2)

/-- downloadCliSource: resolve the per-OS source URL, then fetch it into the
scratch directory under the URL's base name. -/
def downloadCliSource (env : Env) (cli : Cli) (tempDir : String) :
    Except JsError String × List Effect :=
  match getOsCliSource env.platform cli with
  | .error e => (.error e, [])
  | .ok installerSource =>
    let destinationFile := pathJoin tempDir (baseName installerSource)
    let tr := [Effect.log ("Downloading installer from " ++ installerSource ++ "..."),
               Effect.download installerSource destinationFile]
    if env.downloadOk then (.ok destinationFile, tr)
    else (.error (.genericError ("Download failed: " ++ installerSource)), tr)

/-- The msiexec invocation made by installToolkitLocalMsi. -/
def msiCall (env : Env) (msiPath : String) : ProcCall :=
  { command := "msiexec"
    cwd := none
    args := ["/a", msiPath, "/quiet",
             "TARGETDIR=" ++ getToolkitCliDir env.globalStoragePath] }

/-- installToolkitLocalMsi: run msiexec in administrative extraction mode
against the managed install directory; non-zero exit throws InstallerError. -/
def installToolkitLocalMsi (env : Env) (msiPath : String) :
    Except JsError String × List Effect :=
  match env.platform with
  | .win32 =>
    let call := msiCall env msiPath
    let code := env.runProcess call
    if code = 0 then
      (.ok (pathJoin (getToolkitCliDir env.globalStoragePath) (getOsCommand env.platform (AWS_CLIS .aws))),
       [Effect.procRun call])
    else
      (.error (.installerError
          ("Installation of MSI file " ++ msiPath ++ " failed: Error Code " ++ toString code)),
       [Effect.procRun call])
  | p =>
    (.error (.invalidPlatformError ("Cannot install MSI files on operating system: " ++ p.str)), [])

/-- The installer invocation made by installToolkitLocalPkg. -/
def pkgCall (pkgPath : String) (args : List String) : ProcCall :=
  { command := "installer", cwd := none, args := ["--pkg", pkgPath] ++ args }

/-- installToolkitLocalPkg: run the macOS installer utility on the pkg file;
non-zero exit throws InstallerError. -/
def installToolkitLocalPkg (env : Env) (pkgPath : String) (args : List String) :
    Except JsError String × List Effect :=
  match env.platform with
  | .darwin =>
    let call := pkgCall pkgPath args
    let code := env.runProcess call
    if code = 0 then
      (.ok (pathJoin (getToolkitCliDir env.globalStoragePath) (getOsCommand env.platform (AWS_CLIS .aws))),
       [Effect.procRun call])
    else
      (.error (.installerError
          ("Installation of PKG file " ++ pkgPath ++ " failed: Error Code " ++ toString code)),
       [Effect.procRun call])
  | p =>
    (.error (.invalidPlatformError ("Cannot install pkg files on operating system: " ++ p.str)), [])

/-- The shell invocation of the bundled install script made by
installToolkitLocalLinuxAwsCli, pointing -i and -b at the managed install
directory under Amazon/AWSCLIV2. -/
def linuxInstallCall (env : Env) (archivePath : String) : ProcCall :=
  let dirname := pathJoin (dirName archivePath) (fileStem archivePath)
  let installDir := pathJoin (pathJoin (getToolkitCliDir env.globalStoragePath) "Amazon") "AWSCLIV2"
  { command := "sh"
    cwd := none
    args := [pathJoin (pathJoin dirname "aws") "install", "-i", installDir, "-b", installDir] }

/-- installToolkitLocalLinuxAwsCli: extract the zip next to itself, run the
bundled install script; non-zero exit throws InstallerError. -/
def installToolkitLocalLinuxAwsCli (env : Env) (archivePath : String) :
    Except JsError String × List Effect :=
  match env.platform with
  | .linux =>
    let dirname := pathJoin (dirName archivePath) (fileStem archivePath)
    match env.extractError with
    | some m => (.error (.genericError m), [])
    | none =>
      let call := linuxInstallCall env archivePath
      let code := env.runProcess call
      if code = 0 then
        (.ok (pathJoin (getToolkitCliDir env.globalStoragePath) (getOsCommand env.platform (AWS_CLIS .aws))),
         [Effect.extractZip archivePath dirname, Effect.procRun call])
      else
        (.error (.installerError
            ("Installation of Linux CLI archive " ++ archivePath ++ " failed: Error Code " ++ toString code)),
         [Effect.extractZip archivePath dirname, Effect.procRun call])
  | p =>
    (.error (.invalidPlatformError ("Cannot use Linux installer on operating system: " ++ p.str)), [])

/-- installAwsCli: download the per-OS artifact, make it executable, then
dispatch to the per-OS installer. -/
def installAwsCli (env : Env) (tempDir : String) : Except JsError String × List Effect :=
  let d := downloadCliSource env (AWS_CLIS AwsClis.aws) tempDir
  match d.1 with
  | .error e => (.error e, d.2)
  | .ok awsInstaller =>
    let tr := d.2 ++
      [Effect.chmod awsInstaller,
       Effect.log ("Installing AWS CLI from " ++ awsInstaller ++ " to "
         ++ getToolkitCliDir env.globalStoragePath ++ "...")]
    match env.platform with
    | .win32 =>
      let m := installToolkitLocalMsi env awsInstaller
      (m.1, tr ++ m.2)
    | .darwin =>
      let xmlPath := pathJoin tempDir "choices.xml"
      let m := installToolkitLocalPkg env awsInstaller
        ["--target", "CurrentUserHomeDirectory", "--applyChoiceChangesXML", xmlPath]
      (m.1, tr ++ [Effect.writeFile xmlPath] ++ m.2)
    | .linux =>
      let m := installToolkitLocalLinuxAwsCli env awsInstaller
      (m.1, tr ++ m.2)
    | .other s =>
      (.error (.invalidPlatformError ("Unsupported platform for CLI installation: " ++ s)), tr)

/-- The pkgutil invocation made by the darwin branch of installSsmCli. -/
def pkgutilCall (tempDir : String) : ProcCall :=
  { command := "pkgutil"
    cwd := some tempDir
    args := ["--expand", "session-manager-plugin.pkg", pathJoin tempDir "tmp"] }

/-- The tar invocation made by the darwin branch of installSsmCli. -/
def ssmTarDarwinCall (tempDir : String) : ProcCall :=
  { command := "tar"
    cwd := some (pathJoin tempDir "tmp")
    args := ["-xzf", pathJoin (pathJoin tempDir "tmp") "Payload"] }

/-- The ar invocation made by the linux branch of installSsmCli. -/
def arCall (ssmInstaller : String) : ProcCall :=
  { command := "ar", cwd := some (dirName ssmInstaller), args := ["-x", ssmInstaller] }

/-- The tar invocation made by the linux branch of installSsmCli. -/
def ssmTarLinuxCall (ssmInstaller : String) : ProcCall :=
  { command := "tar"
    cwd := some (dirName ssmInstaller)
    args := ["-xzf", pathJoin (dirName ssmInstaller) "data.tar.gz"] }

/-- installSsmCli: download the plugin artifact and unpack it into the
managed install directory by per-OS means.  The darwin and linux branches run
their external processes without inspecting the returned exit codes; only an
error thrown by copying (darwin) or by archive extraction (win32) is turned
into an InstallerError. -/
def installSsmCli (env : Env) (tempDir : String) : Except JsError String × List Effect :=
  let d := downloadCliSource env (AWS_CLIS AwsClis.ssm) tempDir
  match d.1 with
  | .error e => (.error e, d.2)
  | .ok ssmInstaller =>
    let outDir := pathJoin (getToolkitLocalCliPath env.globalStoragePath) "sessionmanagerplugin"
    let tr := d.2 ++
      [Effect.log ("Installing SSM CLI from " ++ ssmInstaller ++ " to " ++ outDir ++ "...")]
    match env.platform with
    | .darwin =>
      let tempPath := pathJoin tempDir "tmp"
      let c1 := pkgutilCall tempDir
      let c2 := ssmTarDarwinCall tempDir
      match env.copyError with
      | some m => (.error (.installerError m), tr ++ [Effect.procRun c1, Effect.procRun c2])
      | none =>
        (.ok (pathJoin outDir "bin"),
         tr ++ [Effect.procRun c1, Effect.procRun c2,
                Effect.copyTree (pathJoin (pathJoin (pathJoin tempPath "usr") "local") "sessionmanagerplugin") outDir])
    | .win32 =>
      let secondZip := pathJoin tempDir "package.zip"
      match env.extractError with
      | some m => (.error (.installerError m), tr)
      | none =>
        (.ok (pathJoin outDir "bin"),
         tr ++ [Effect.extractZip ssmInstaller tempDir, Effect.extractZip secondZip outDir])
    | .linux =>
      let c1 := arCall ssmInstaller
      let c2 := ssmTarLinuxCall ssmInstaller
      (.ok (pathJoin outDir "bin"),
       tr ++ [Effect.procRun c1, Effect.procRun c2, Effect.mkdir outDir,
              Effect.copyTree (pathJoin (pathJoin (pathJoin (dirName ssmInstaller) "usr") "local") "sessionmanagerplugin") outDir])
    | .other s =>
      (.error (.invalidPlatformError ("Platform " ++ s ++ " is not supported for CLI autoinstallation.")), tr)

/-- The install stage of installCli: dispatch on the tool id. -/
def installStage (env : Env) (cli : AwsClis) (tempDir : String) :
    Except JsError String × List Effect :=
  match cli with
  | .aws => installAwsCli env tempDir
  | .ssm => installSsmCli env tempDir

/-- The body of the try block of installCli after the scratch directory
exists: run the install stage, then validate with the local probe. -/
def installCliAttempt (env : Env) (cli : AwsClis) (tempDir : String) :
    Except JsError String × List Effect :=
  let s := installStage env cli tempDir
  match s.1 with
  | .error e => (.error e, s.2)
  | .ok cliPath =>
    let v := hasCliCommand env (AWS_CLIS cli) false
    match v.1 with
    | .ok (some _) => (.ok cliPath, s.2 ++ v.2)
    | .ok none => (.error (.installerError "Could not verify installed CLIs"), s.2 ++ v.2)
    | .error e => (.error e, s.2 ++ v.2)

/-- The error notification shown from the catch block of installCli. -/
def failNotice (cli : AwsClis) : Effect :=
  Effect.showErrorMessage ("Installation of the " ++ (AWS_CLIS cli).name ++ " CLI failed.")

/-- The trace of the finally-block cleanup of the scratch directory;
cleanupOk tells whether the fire-and-forget removal eventually succeeds,
which only changes what is logged. -/
def cleanupFx (tempDir : String) (cleanupOk : Bool) : List Effect :=
  [Effect.log "Cleaning up installer...",
   Effect.removeFolder tempDir,
   Effect.log (if cleanupOk then "Removed installer."
     else "Failed to clean up installer in temp directory: " ++ tempDir)]

/-- installCli: confirm with the user, create a scratch directory, install,
validate, and in all cases clean up and record exactly one telemetry event.
Result ok-some is a returned path, ok-none is the undefined returned on
cancellation, error is a thrown error. -/
def installCli (env : Env) (cleanupOk : Bool) (cli : AwsClis) :
    Except JsError (Option String) × List Effect :=
  match env.selection with
  | .dismissed =>
    (.ok none, [Effect.telemetryRecord .cancelled cli])
  | .manualInstall =>
    (.ok none, [Effect.openExternal (AWS_CLIS cli).manualInstallLink,
                Effect.telemetryRecord .cancelled cli])
  | .install =>
    if env.mkTempOk then
      let tempDir := env.tempDirPath
      let a := installCliAttempt env cli tempDir
      match a.1 with
      | .ok p =>
        (.ok (some p),
         Effect.mkTempDir :: a.2 ++ cleanupFx tempDir cleanupOk
           ++ [Effect.telemetryRecord .succeeded cli])
      | .error e =>
        (.error e,
         Effect.mkTempDir :: a.2 ++ [failNotice cli] ++ cleanupFx tempDir cleanupOk
           ++ [Effect.telemetryRecord .failed cli])
    else
      (.error (.genericError "Failed to create temporary folder"),
       [Effect.mkTempDir, failNotice cli, Effect.telemetryRecord .failed cli])

/-- Whether an effect is a telemetry record. -/
def Effect.isTelemetry : Effect → Bool
  | .telemetryRecord _ _ => true
  | _ => false

/-- Number of telemetry records in a trace. -/
def telemetryCount (tr : List Effect) : Nat :=
  tr.countP Effect.isTelemetry

/-- Whether an effect touches the file system, the network, or spawns an
external process (as opposed to UI, logging and telemetry). -/
def Effect.isStateful : Effect → Bool
  | .procRun _ => true
  | .mkTempDir => true
  | .download _ _ => true
  | .chmod _ => true
  | .writeFile _ => true
  | .extractZip _ _ => true
  | .copyTree _ _ => true
  | .mkdir _ => true
  | .removeFolder _ => true
  | _ => false

/-- Number of stateful effects in a trace. -/
def statefulCount (tr : List Effect) : Nat :=
  tr.countP Effect.isStateful

/-- The telemetry result an installCli result value corresponds to. -/
def outcomeOf : Except JsError (Option String) → TelemetryResult
  | .ok (some _) => .succeeded
  | .ok none => .cancelled
  | .error _ => .failed

/-- A concrete environment: Linux, storage root /storage, scratch directory
/tmp/t, user confirms, every oracle succeeds, every subprocess exits 0. -/
def baseEnv : Env :=
  { platform := .linux
    globalStoragePath := "/storage"
    runProcess := fun _ => 0
    selection := .install
    mkTempOk := true
    tempDirPath := "/tmp/t"
    downloadOk := true
    extractError := none
    copyError := none }

/-- Windows environment in which msiexec exits 1 and all else succeeds. -/
def envMsiFails : Env :=
  { baseEnv with platform := .win32
                 runProcess := fun c => if c.command = "msiexec" then 1 else 0 }

/-- macOS environment in which the installer utility exits 1. -/
def envPkgInstallerFails : Env :=
  { baseEnv with platform := .darwin
                 runProcess := fun c => if c.command = "installer" then 1 else 0 }

/-- Linux environment in which the bundled install script exits 1. -/
def envShFails : Env :=
  { baseEnv with runProcess := fun c => if c.command = "sh" then 1 else 0 }

/-- macOS environment in which everything succeeds. -/
def envDarwinOk : Env :=
  { baseEnv with platform := .darwin }

/-- macOS environment in which pkgutil exits 1 and all else succeeds. -/
def envPkgutilFails : Env :=
  { baseEnv with platform := .darwin
                 runProcess := fun c => if c.command = "pkgutil" then 1 else 0 }

/-- Linux environment in which the install script succeeds but every other
subprocess (in particular the local verification probe) exits 1. -/
def envProbeFails : Env :=
  { baseEnv with runProcess := fun c => if c.command = "sh" then 0 else 1 }

/-- Environment in which the user dismisses the prompt. -/
def envDismissed : Env :=
  { baseEnv with selection := .dismissed }

/-- Environment in which the user picks manual installation. -/
def envManual : Env :=
  { baseEnv with selection := .manualInstall }

/-- Environment on an OS outside the three supported families. -/
def envFreebsd : Env :=
  { baseEnv with platform := .other "freebsd" }

/-- Claim C1, counterexample: on macOS with every oracle succeeding except
that the invoked pkgutil process exits with code 1, installSsmCli still
resolves successfully instead of raising an InstallerError, even though that
invocation is recorded in its effect trace. -/
theorem installSsmCli_ignores_pkgutil_failure :
    envPkgutilFails.runProcess (pkgutilCall "/tmp/t") = 1 ∧
    Effect.procRun (pkgutilCall "/tmp/t") ∈ (installSsmCli envPkgutilFails "/tmp/t").2 ∧
    (installSsmCli envPkgutilFails "/tmp/t").1 =
      .ok "/storage/cli/Amazon/sessionmanagerplugin/bin" :=
  ⟨rfl, of_decide_eq_true rfl, rfl⟩

/-- Claim C1, amended: the three AWS CLI platform installers raise an
InstallerError whose message carries the artifact path and the failing exit
code whenever their installer process exits non-zero, aborting the attempt;
installSsmCli however never inspects the exit codes of the processes it
invokes and completes successfully regardless of them. -/
theorem awsInstallers_raise_on_nonzero_exit_ssmInstaller_does_not
    (e1 e2 e3 e4 : Env) (a1 a2 a3 t4 : String) (xs : List String)
    (h1 : e1.platform = Platform.win32)
    (hc1 : e1.runProcess (msiCall e1 a1) ≠ 0)
    (h2 : e2.platform = Platform.darwin)
    (hc2 : e2.runProcess (pkgCall a2 xs) ≠ 0)
    (h3 : e3.platform = Platform.linux)
    (he3 : e3.extractError = none)
    (hc3 : e3.runProcess (linuxInstallCall e3 a3) ≠ 0)
    (h4 : e4.platform = Platform.darwin)
    (hd4 : e4.downloadOk = true)
    (he4 : e4.copyError = none) :
    (installToolkitLocalMsi e1 a1).1 = .error (.installerError
      ("Installation of MSI file " ++ a1 ++ " failed: Error Code "
        ++ toString (e1.runProcess (msiCall e1 a1)))) ∧
    (installToolkitLocalPkg e2 a2 xs).1 = .error (.installerError
      ("Installation of PKG file " ++ a2 ++ " failed: Error Code "
        ++ toString (e2.runProcess (pkgCall a2 xs)))) ∧
    (installToolkitLocalLinuxAwsCli e3 a3).1 = .error (.installerError
      ("Installation of Linux CLI archive " ++ a3 ++ " failed: Error Code "
        ++ toString (e3.runProcess (linuxInstallCall e3 a3)))) ∧
    (installSsmCli e4 t4).1 =
      .ok (pathJoin (pathJoin (getToolkitLocalCliPath e4.globalStoragePath)
        "sessionmanagerplugin") "bin") := by
  refine ⟨?_, ?_, ?_, ?_⟩
  · simp [installToolkitLocalMsi, h1, hc1]
  · simp [installToolkitLocalPkg, h2, hc2]
  · simp [installToolkitLocalLinuxAwsCli, he3, h3, hc3]
  · simp [installSsmCli, downloadCliSource, getOsCliSource, AWS_CLIS, h4, hd4, he4]

/-- Witness for the amended claim C1 at concrete environments: each AWS
installer raises the InstallerError with exit code 1 and the artifact path,
and installSsmCli succeeds on macOS whatever its subprocesses returned. -/
theorem awsInstallers_raise_on_nonzero_exit_ssmInstaller_does_not_witness :
    envMsiFails.runProcess (msiCall envMsiFails "/tmp/t/AWSCLIV2.msi") ≠ 0 ∧
    envPkgInstallerFails.runProcess (pkgCall "/tmp/t/AWSCLIV2.pkg" []) ≠ 0 ∧
    envShFails.runProcess (linuxInstallCall envShFails "/tmp/t/awscli-exe-linux-x86_64.zip") ≠ 0 ∧
    (installToolkitLocalMsi envMsiFails "/tmp/t/AWSCLIV2.msi").1 = .error (.installerError
      "Installation of MSI file /tmp/t/AWSCLIV2.msi failed: Error Code 1") ∧
    (installToolkitLocalPkg envPkgInstallerFails "/tmp/t/AWSCLIV2.pkg" []).1 = .error (.installerError
      "Installation of PKG file /tmp/t/AWSCLIV2.pkg failed: Error Code 1") ∧
    (installToolkitLocalLinuxAwsCli envShFails "/tmp/t/awscli-exe-linux-x86_64.zip").1 = .error (.installerError
      "Installation of Linux CLI archive /tmp/t/awscli-exe-linux-x86_64.zip failed: Error Code 1") ∧
    (installSsmCli envDarwinOk "/tmp/t").1 = .ok "/storage/cli/Amazon/sessionmanagerplugin/bin" := by
  have h := awsInstallers_raise_on_nonzero_exit_ssmInstaller_does_not
    envMsiFails envPkgInstallerFails envShFails envDarwinOk
    "/tmp/t/AWSCLIV2.msi" "/tmp/t/AWSCLIV2.pkg" "/tmp/t/awscli-exe-linux-x86_64.zip" "/tmp/t" []
    rfl (by decide) rfl (by decide) rfl rfl (by decide) rfl rfl rfl
  exact ⟨by decide, by decide, by decide, h.1, h.2.1, h.2.2.1, h.2.2.2⟩

/-- Claim C2, code evaluation at the failing input: on Linux with every stage
succeeding, installCli aws returns /storage/cli/AWSCLIV2/aws, although the
bundled install script was told to install into /storage/cli/Amazon/AWSCLIV2
and the successful verification probe executed
/storage/cli/Amazon/AWSCLIV2/aws: the returned path is not the directory the
binary was installed to and lies outside the Amazon subtree. -/
theorem installCli_aws_linux_returns_path_outside_install_dir :
    (installCli baseEnv true .aws).1 = .ok (some "/storage/cli/AWSCLIV2/aws") ∧
    (linuxInstallCall baseEnv "/tmp/t/awscli-exe-linux-x86_64.zip").args =
      ["/tmp/t/awscli-exe-linux-x86_64/aws/install",
       "-i", "/storage/cli/Amazon/AWSCLIV2", "-b", "/storage/cli/Amazon/AWSCLIV2"] ∧
    Effect.procRun (linuxInstallCall baseEnv "/tmp/t/awscli-exe-linux-x86_64.zip")
      ∈ (installCli baseEnv true .aws).2 ∧
    Effect.procRun { command := "/storage/cli/Amazon/AWSCLIV2/aws", cwd := none, args := ["--version"] }
      ∈ (installCli baseEnv true .aws).2 :=
  ⟨rfl, rfl, of_decide_eq_true rfl, of_decide_eq_true rfl⟩

/-- Claim C3: for every CLI descriptor and environment, getCliCommand returns
the bare global command when running it with a version flag exits 0; otherwise
the full path inside the managed install directory when running that exits 0;
otherwise undefined — all without throwing, preferring global over local. -/
theorem getCliCommand_prefers_global_then_local_else_none (env : Env) (cli : Cli) :
    (getCliCommand env cli).1 =
      .ok (if env.runProcess (probeProcCall env cli true) = 0
        then some (probeProcCall env cli true).command
        else if env.runProcess (probeProcCall env cli false) = 0
          then some (probeProcCall env cli false).command
          else none) := by
  unfold getCliCommand hasCliCommand
  by_cases h1 : env.runProcess (probeProcCall env cli true) = 0 <;>
    by_cases h2 : env.runProcess (probeProcCall env cli false) = 0 <;>
      simp [h1, h2]

/-- Claim C4: for both tools, each of the three supported platforms resolves
to a non-empty source URL and a non-empty relative binary path, while any
other OS identifier makes getOsCliSource throw InvalidPlatformError, which
downloadCliSource propagates unmodified with no work attempted. -/
theorem platform_resolution_total_on_supported_or_invalidPlatformError
    (c : AwsClis) (env : Env) (s : String) (tempDir : String)
    (hp : env.platform = Platform.other s) :
    (getOsCliSource Platform.win32 (AWS_CLIS c)).toOption.getD "" ≠ "" ∧
    (getOsCliSource Platform.darwin (AWS_CLIS c)).toOption.getD "" ≠ "" ∧
    (getOsCliSource Platform.linux (AWS_CLIS c)).toOption.getD "" ≠ "" ∧
    getOsCommand Platform.win32 (AWS_CLIS c) ≠ "" ∧
    getOsCommand Platform.darwin (AWS_CLIS c) ≠ "" ∧
    getOsCommand Platform.linux (AWS_CLIS c) ≠ "" ∧
    getOsCliSource (Platform.other s) (AWS_CLIS c) =
      .error (.invalidPlatformError
        ("Platform " ++ s ++ " is not supported for CLI autoinstallation.")) ∧
    downloadCliSource env (AWS_CLIS c) tempDir =
      (.error (.invalidPlatformError
        ("Platform " ++ s ++ " is not supported for CLI autoinstallation.")), []) := by
  refine ⟨?_, ?_, ?_, ?_, ?_, ?_, rfl, ?_⟩
  · cases c <;> decide
  · cases c <;> decide
  · cases c <;> decide
  · cases c <;> decide
  · cases c <;> decide
  · cases c <;> decide
  · simp [downloadCliSource, getOsCliSource, hp]

/-- Witness for claim C4 on a concrete unsupported platform (freebsd) and the
aws descriptor. -/
theorem platform_resolution_witness :
    envFreebsd.platform = Platform.other "freebsd" ∧
    ((getOsCliSource Platform.win32 (AWS_CLIS .aws)).toOption.getD "" ≠ "" ∧
     (getOsCliSource Platform.darwin (AWS_CLIS .aws)).toOption.getD "" ≠ "" ∧
     (getOsCliSource Platform.linux (AWS_CLIS .aws)).toOption.getD "" ≠ "" ∧
     getOsCommand Platform.win32 (AWS_CLIS .aws) ≠ "" ∧
     getOsCommand Platform.darwin (AWS_CLIS .aws) ≠ "" ∧
     getOsCommand Platform.linux (AWS_CLIS .aws) ≠ "" ∧
     getOsCliSource (Platform.other "freebsd") (AWS_CLIS .aws) =
       .error (.invalidPlatformError
         "Platform freebsd is not supported for CLI autoinstallation.") ∧
     downloadCliSource envFreebsd (AWS_CLIS .aws) "/tmp/t" =
       (.error (.invalidPlatformError
         "Platform freebsd is not supported for CLI autoinstallation."), [])) :=
  ⟨rfl, platform_resolution_total_on_supported_or_invalidPlatformError
    .aws envFreebsd "freebsd" "/tmp/t" rfl⟩

/-- Claim C9: getCliCommand never raises InvalidPlatformError (or any error):
on every platform it yields an ok result, because the binary-path resolution
used by the probe maps every non-Windows platform, including platforms
rejected for installation, to the unix relative path — even though source
resolution on such a platform throws. -/
theorem getCliCommand_total_even_where_install_rejected
    (env : Env) (cli : Cli) (s : String) :
    (∃ o, (getCliCommand env cli).1 = .ok o) ∧
    getOsCommand (Platform.other s) cli = cli.command.unix ∧
    getOsCommand Platform.darwin cli = cli.command.unix ∧
    getOsCommand Platform.linux cli = cli.command.unix ∧
    (∃ e, getOsCliSource (Platform.other s) cli = .error e) := by
  refine ⟨?_, rfl, rfl, rfl, ⟨_, rfl⟩⟩
  unfold getCliCommand hasCliCommand
  by_cases h1 : env.runProcess (probeProcCall env cli true) = 0 <;> simp [h1]

/-- The probe itself records no telemetry. -/
theorem countP_isTelemetry_probe (env : Env) (cli : Cli) (g : Bool) :
    ((hasCliCommand env cli g).2).countP Effect.isTelemetry = 0 := rfl

/-- The fetcher records no telemetry. -/
theorem countP_isTelemetry_download (env : Env) (cli : Cli) (t : String) :
    ((downloadCliSource env cli t).2).countP Effect.isTelemetry = 0 := by
  unfold downloadCliSource
  split
  · rfl
  · split <;> rfl

/-- The MSI installer records no telemetry. -/
theorem countP_isTelemetry_msi (env : Env) (p : String) :
    ((installToolkitLocalMsi env p).2).countP Effect.isTelemetry = 0 := by
  unfold installToolkitLocalMsi
  split
  · dsimp only
    split <;> rfl
  · rfl

/-- The pkg installer records no telemetry. -/
theorem countP_isTelemetry_pkg (env : Env) (p : String) (args : List String) :
    ((installToolkitLocalPkg env p args).2).countP Effect.isTelemetry = 0 := by
  unfold installToolkitLocalPkg
  split
  · dsimp only
    split <;> rfl
  · rfl

/-- The Linux archive installer records no telemetry. -/
theorem countP_isTelemetry_linuxAws (env : Env) (p : String) :
    ((installToolkitLocalLinuxAwsCli env p).2).countP Effect.isTelemetry = 0 := by
  unfold installToolkitLocalLinuxAwsCli
  split
  · split
    · rfl
    · dsimp only
      split <;> rfl
  · rfl

/-- installAwsCli records no telemetry. -/
theorem countP_isTelemetry_aws (env : Env) (t : String) :
    ((installAwsCli env t).2).countP Effect.isTelemetry = 0 := by
  unfold installAwsCli
  dsimp only
  split
  · exact countP_isTelemetry_download _ _ _
  · split <;>
      simp [List.countP_append, List.countP_cons, List.countP_nil, Effect.isTelemetry,
        countP_isTelemetry_download, countP_isTelemetry_msi, countP_isTelemetry_pkg,
        countP_isTelemetry_linuxAws]

/-- installSsmCli records no telemetry. -/
theorem countP_isTelemetry_ssm (env : Env) (t : String) :
    ((installSsmCli env t).2).countP Effect.isTelemetry = 0 := by
  unfold installSsmCli
  dsimp only
  split
  · exact countP_isTelemetry_download _ _ _
  · split <;> try split
    all_goals
      simp [List.countP_append, List.countP_cons, List.countP_nil, Effect.isTelemetry,
        countP_isTelemetry_download]

/-- The install stage records no telemetry. -/
theorem countP_isTelemetry_stage (env : Env) (cli : AwsClis) (t : String) :
    ((installStage env cli t).2).countP Effect.isTelemetry = 0 := by
  cases cli
  · exact countP_isTelemetry_aws _ _
  · exact countP_isTelemetry_ssm _ _

/-- The whole try-block body records no telemetry. -/
theorem countP_isTelemetry_attempt (env : Env) (cli : AwsClis) (t : String) :
    ((installCliAttempt env cli t).2).countP Effect.isTelemetry = 0 := by
  unfold installCliAttempt
  dsimp only
  split
  · exact countP_isTelemetry_stage _ _ _
  · split <;>
      simp [List.countP_append, List.countP_cons, List.countP_nil, Effect.isTelemetry,
        countP_isTelemetry_stage, hasCliCommand]

/-- Claim C5: whenever the user does not choose the primary install action,
installCli returns undefined without throwing, emits exactly one telemetry
record and it is Cancelled, and no scratch directory was ever created. -/
theorem installCli_cancelled_when_declined (env : Env) (b : Bool) (cli : AwsClis)
    (h : env.selection ≠ Selection.install) :
    (installCli env b cli).1 = .ok none ∧
    telemetryCount (installCli env b cli).2 = 1 ∧
    Effect.telemetryRecord TelemetryResult.cancelled cli ∈ (installCli env b cli).2 ∧
    Effect.mkTempDir ∉ (installCli env b cli).2 := by
  unfold installCli
  cases hsel : env.selection
  · exact absurd hsel h
  · simp [telemetryCount, List.countP_cons, List.countP_nil, Effect.isTelemetry]
  · simp [telemetryCount, List.countP_cons, List.countP_nil, Effect.isTelemetry]

/-- Witness for claim C5: the user dismisses the prompt. -/
theorem installCli_cancelled_when_declined_witness :
    envDismissed.selection ≠ Selection.install ∧
    ((installCli envDismissed true .aws).1 = .ok none ∧
     telemetryCount (installCli envDismissed true .aws).2 = 1 ∧
     Effect.telemetryRecord TelemetryResult.cancelled .aws ∈ (installCli envDismissed true .aws).2 ∧
     Effect.mkTempDir ∉ (installCli envDismissed true .aws).2) :=
  ⟨by decide, installCli_cancelled_when_declined envDismissed true .aws (by decide)⟩

/-- Claim C6: if the install stage throws after the scratch directory was
created, installCli rethrows the same error, the scratch-directory removal is
still invoked, and the telemetry record is Failed. -/
theorem installCli_rethrows_and_cleans_up_on_installer_error (env : Env) (b : Bool)
    (cli : AwsClis) (e : JsError)
    (hs : env.selection = Selection.install) (hm : env.mkTempOk = true)
    (he : (installStage env cli env.tempDirPath).1 = .error e) :
    (installCli env b cli).1 = .error e ∧
    Effect.removeFolder env.tempDirPath ∈ (installCli env b cli).2 ∧
    Effect.telemetryRecord TelemetryResult.failed cli ∈ (installCli env b cli).2 := by
  simp [installCli, installCliAttempt, hs, hm, he, cleanupFx, failNotice]

/-- Witness for claim C6: on Linux the bundled install script exits 1, the
session rethrows that InstallerError, removes the scratch directory and
records Failed. -/
theorem installCli_rethrows_and_cleans_up_on_installer_error_witness :
    envShFails.selection = Selection.install ∧
    envShFails.mkTempOk = true ∧
    (installStage envShFails .aws envShFails.tempDirPath).1 = .error (.installerError
      "Installation of Linux CLI archive /tmp/t/awscli-exe-linux-x86_64.zip failed: Error Code 1") ∧
    ((installCli envShFails true .aws).1 = .error (.installerError
       "Installation of Linux CLI archive /tmp/t/awscli-exe-linux-x86_64.zip failed: Error Code 1") ∧
     Effect.removeFolder "/tmp/t" ∈ (installCli envShFails true .aws).2 ∧
     Effect.telemetryRecord TelemetryResult.failed .aws ∈ (installCli envShFails true .aws).2) :=
  ⟨rfl, rfl, rfl,
   installCli_rethrows_and_cleans_up_on_installer_error envShFails true .aws _ rfl rfl rfl⟩

/-- Claim C7: if the install stage succeeds but the local probe of the
just-installed tool exits non-zero, installCli raises the InstallerError with
message Could not verify installed CLIs and the session outcome is Failed. -/
theorem installCli_verification_failure_raises (env : Env) (b : Bool)
    (cli : AwsClis) (p : String)
    (hs : env.selection = Selection.install) (hm : env.mkTempOk = true)
    (hi : (installStage env cli env.tempDirPath).1 = .ok p)
    (hv : env.runProcess (probeProcCall env (AWS_CLIS cli) false) ≠ 0) :
    (installCli env b cli).1 = .error (.installerError "Could not verify installed CLIs") ∧
    Effect.telemetryRecord TelemetryResult.failed cli ∈ (installCli env b cli).2 := by
  simp [installCli, installCliAttempt, hasCliCommand, hs, hm, hi, hv, cleanupFx, failNotice]

/-- Witness for claim C7: on Linux the install script succeeds but the local
verification probe exits 1. -/
theorem installCli_verification_failure_raises_witness :
    envProbeFails.selection = Selection.install ∧
    envProbeFails.mkTempOk = true ∧
    (installStage envProbeFails .aws envProbeFails.tempDirPath).1 =
      .ok "/storage/cli/AWSCLIV2/aws" ∧
    envProbeFails.runProcess (probeProcCall envProbeFails (AWS_CLIS .aws) false) ≠ 0 ∧
    ((installCli envProbeFails true .aws).1 =
       .error (.installerError "Could not verify installed CLIs") ∧
     Effect.telemetryRecord TelemetryResult.failed .aws ∈ (installCli envProbeFails true .aws).2) :=
  ⟨rfl, rfl, rfl, by decide,
   installCli_verification_failure_raises envProbeFails true .aws _ rfl rfl rfl (by decide)⟩

/-- Claim C8: every installCli session emits exactly one telemetry record,
that record carries the result matching the returned value (Succeeded for a
path, Cancelled for undefined, Failed for a thrown error), and whether the
fire-and-forget scratch cleanup succeeds never changes the session result. -/
theorem installCli_exactly_one_telemetry_matching_outcome (env : Env) (b : Bool)
    (cli : AwsClis) :
    telemetryCount (installCli env b cli).2 = 1 ∧
    Effect.telemetryRecord (outcomeOf (installCli env b cli).1) cli ∈ (installCli env b cli).2 ∧
    (installCli env b cli).1 = (installCli env true cli).1 := by
  unfold installCli
  cases hsel : env.selection
  case dismissed =>
    simp [telemetryCount, List.countP_cons, List.countP_nil, Effect.isTelemetry, outcomeOf]
  case manualInstall =>
    simp [telemetryCount, List.countP_cons, List.countP_nil, Effect.isTelemetry, outcomeOf]
  case install =>
    cases hmk : env.mkTempOk
    · simp [telemetryCount, List.countP_cons, List.countP_nil, Effect.isTelemetry, outcomeOf,
        failNotice]
    · cases ha : (installCliAttempt env cli env.tempDirPath).1 <;>
        simp [telemetryCount, List.countP_cons, List.countP_nil, List.countP_append,
          Effect.isTelemetry, outcomeOf, cleanupFx, failNotice, countP_isTelemetry_attempt, ha]

/-- Claim C10: if the user does not choose the primary install action,
installCli performs no file-system, network or subprocess effect at all: no
scratch directory, no download, and the managed install directory untouched. -/
theorem installCli_no_stateful_effects_without_confirmation (env : Env) (b : Bool)
    (cli : AwsClis) (h : env.selection ≠ Selection.install) :
    (installCli env b cli).1 = .ok none ∧
    statefulCount (installCli env b cli).2 = 0 := by
  unfold installCli
  cases hsel : env.selection
  · exact absurd hsel h
  · simp [statefulCount, List.countP_cons, List.countP_nil, Effect.isStateful]
  · simp [statefulCount, List.countP_cons, List.countP_nil, Effect.isStateful]

/-- Witness for claim C10: the user picks manual installation. -/
theorem installCli_no_stateful_effects_without_confirmation_witness :
    envManual.selection ≠ Selection.install ∧
    ((installCli envManual true .ssm).1 = .ok none ∧
     statefulCount (installCli envManual true .ssm).2 = 0) :=
  ⟨by decide, installCli_no_stateful_effects_without_confirmation envManual true .ssm (by decide)⟩

end CliUtils
